import Mathlib

/-!
Shallow embedding of the email application: the token provider in
`auth.py` and the mail gateway client in `email_client.py`.

The identity provider (MSAL) and the HTTP layer (requests) are external
collaborators; they are modelled as oracles supplied to each embedded
function. Each embedded operation additionally records its observable
behaviour: the identity-provider calls it makes, the HTTP requests it
issues, the lines it emits via `ic`, and the exception that escapes it,
if any.
-/

/-- An opaque account handle returned by the identity provider. -/
abbrev Account := String

/-- A Python dict from string keys to string values, as an association list. -/
abbrev PyDict := List (String × String)

/-- Python key lookup, used for both `k in d` and `d.get(k)`. -/
def PyDict.get? (d : PyDict) (k : String) : Option String :=
  (d.find? (fun p => p.1 == k)).map (fun p => p.2)

/-- Python truthiness of a dict: nonempty. -/
def PyDict.truthy (d : PyDict) : Bool := !d.isEmpty

/-- The Python exceptions the embedded code can raise. -/
inductive PyError where
  | keyError (key : String)
  | typeError (msg : String)
  | attributeError (msg : String)
  | exception (msg : String) (error_description : Option String)
  deriving DecidableEq, Repr

/-- The identity provider as seen through `msal.ConfidentialClientApplication`
constructed with the fixed credential configuration: the cached accounts that
`get_accounts` reports, and the results of the silent and interactive
acquisition calls. -/
structure IdentityEnv where
  accounts : List Account
  acquire_token_silent : List String → Account → Option PyDict
  acquire_token_interactive : List String → String → PyDict

/-- One call made to the identity provider. -/
inductive ProviderCall where
  | getAccounts
  | silent (account : Account)
  | interactive
  deriving DecidableEq, Repr

/-- Result of one token-provider function: the provider calls it made, and
either the token it returned or the exception it raised. -/
structure AuthResult where
  calls : List ProviderCall
  result : Except PyError String

def CLIENT_ID : String := "4dcd6afc-b59f-4215-95f7-4b6c2c2d83e1"

def TENANT_ID : String := "2080ad1c-4ca1-4961-98ba-51996277c9ba"

def CLIENT_SECRET : String := "fbc165d4-1a2f-44c2-9522-62fb7ff5c7cc"

def AUTHORITY : String := "https://login.microsoftonline.com/" ++ TENANT_ID

def REDIRECT_URI : String := "http://localhost:5000/callback"

def SCOPE : List String := ["Mail.ReadWrite", "Mail.Send"]

/-- `auth.get_access_token`: the interactive acquisition (the spec name is
`acquire_token_interactive`). Returns the access token on success; otherwise
raises an exception carrying the error description of the provider. -/
def get_access_token (env : IdentityEnv) : AuthResult :=
  let result := env.acquire_token_interactive SCOPE REDIRECT_URI
  match result.get? "access_token" with
  | some tok => { calls := [ProviderCall.interactive], result := Except.ok tok }
  | none =>
      { calls := [ProviderCall.interactive],
        result := Except.error
          (PyError.exception "could not authenticate: " (result.get? "error_description")) }

/-- `auth.get_cached_access_token` (the spec name is
`acquire_token_cached_or_interactive`): queries the cached accounts, attempts
silent reauthentication for the first one, and falls back to
`get_access_token` when no account exists or the silent call yields a falsy
result. A truthy silent result is indexed directly at the access-token key. -/
def get_cached_access_token (env : IdentityEnv) : AuthResult :=
  match env.accounts with
  | account :: _ =>
      match env.acquire_token_silent SCOPE account with
      | some result =>
          if result.truthy then
            match result.get? "access_token" with
            | some tok =>
                { calls := [ProviderCall.getAccounts, ProviderCall.silent account],
                  result := Except.ok tok }
            | none =>
                { calls := [ProviderCall.getAccounts, ProviderCall.silent account],
                  result := Except.error (PyError.keyError "access_token") }
          else
            let r := get_access_token env
            { calls := ProviderCall.getAccounts :: ProviderCall.silent account :: r.calls,
              result := r.result }
      | none =>
          let r := get_access_token env
          { calls := ProviderCall.getAccounts :: ProviderCall.silent account :: r.calls,
            result := r.result }
  | [] =>
      let r := get_access_token env
      { calls := ProviderCall.getAccounts :: r.calls, result := r.result }

/-- JSON values, covering the fragment the program builds and consumes. -/
inductive Json where
  | str (s : String)
  | arr (elems : List Json)
  | obj (fields : List (String × Json))

/-- Python subscription `d[k]` on a parsed JSON value: key lookup, raising
`KeyError` when the key is missing and `TypeError` when the value is not a
dict. -/
def Json.index (j : Json) (k : String) : Except PyError Json :=
  match j with
  | .obj fields =>
      match (fields.find? (fun p => p.1 == k)).map (fun p => p.2) with
      | some v => Except.ok v
      | none => Except.error (PyError.keyError k)
  | _ => Except.error (PyError.typeError "not subscriptable")

/-- Python `d.get(k, default)` on a parsed JSON value. -/
def Json.dictGet (j : Json) (k : String) (dflt : Json) : Except PyError Json :=
  match j with
  | .obj fields =>
      Except.ok (((fields.find? (fun p => p.1 == k)).map (fun p => p.2)).getD dflt)
  | _ => Except.error (PyError.attributeError "get")

/-- Python iteration over a parsed JSON value, as used by the loop of
`get_inbox_emails`. -/
def Json.asList : Json → Except PyError (List Json)
  | .arr elems => Except.ok elems
  | _ => Except.error (PyError.typeError "not iterable")

/-- Rendering of a JSON value interpolated into an f-string. -/
def Json.pyStr : Json → String
  | .str s => s
  | .arr _ => "<list>"
  | .obj _ => "<dict>"

/-- An HTTP request issued through the requests library. -/
inductive HttpRequest where
  | post (url : String) (headers : PyDict) (jsonBody : Json)
  | get (url : String) (headers : PyDict)

/-- An HTTP response: status code, raw text, and parsed JSON body. -/
structure HttpResponse where
  status_code : Nat
  text : String
  json : Json

/-- The HTTP layer, as a deterministic oracle from request to response. -/
structure Network where
  respond : HttpRequest → HttpResponse

def GRAPH_API_ENDPOINT : String := "https://graph.microsoft.com/v1.0"

/-- Observable outcome of one mail operation: identity-provider calls made,
HTTP requests issued, lines emitted via `ic`, and the escaping exception, if
any. -/
structure MailRunResult where
  authCalls : List ProviderCall
  requests : List HttpRequest
  output : List String
  error : Option PyError

/-- `email_client.send_email` (the spec operation `send_message`). -/
def send_email (env : IdentityEnv) (net : Network)
    (recipient subject body : String) : MailRunResult :=
  let auth := get_access_token env
  match auth.result with
  | Except.error e =>
      { authCalls := auth.calls, requests := [], output := [], error := some e }
  | Except.ok access_token =>
      let url := GRAPH_API_ENDPOINT ++ "/me/sendMail"
      let headers : PyDict :=
        [("Authorization", "Bearer " ++ access_token),
         ("Content-Type", "application/json")]
      let payload : Json :=
        Json.obj
          [("message", Json.obj
              [("subject", Json.str subject),
               ("body", Json.obj
                 [("contentType", Json.str "Text"), ("content", Json.str body)]),
               ("toRecipients", Json.arr
                 [Json.obj [("emailAddress", Json.obj [("address", Json.str recipient)])]])]),
           ("saveToSentItems", Json.str "true")]
      let response := net.respond (HttpRequest.post url headers payload)
      if response.status_code == 202 then
        { authCalls := auth.calls,
          requests := [HttpRequest.post url headers payload],
          output := ["email sent successfully"],
          error := none }
      else
        { authCalls := auth.calls,
          requests := [HttpRequest.post url headers payload],
          output := ["error sending email: " ++ toString response.status_code ++ ", "
                      ++ response.text],
          error := none }

/-- The four `ic` lines emitted for one inbox message, or the exception its
field accesses raise. -/
def print_email (email : Json) : Except PyError (List String) := do
  let fromField ← email.index "from"
  let emailAddress ← fromField.index "emailAddress"
  let address ← emailAddress.index "address"
  let subject ← email.index "subject"
  let preview ← email.index "bodyPreview"
  return ["From: " ++ address.pyStr,
          "Subject: " ++ subject.pyStr,
          "Body: " ++ preview.pyStr,
          String.mk (List.replicate 40 '-')]

/-- The message loop of `get_inbox_emails`: the lines emitted up to the first
failing message, and that failure, if any. -/
def print_emails : List Json → List String × Option PyError
  | [] => ([], none)
  | email :: rest =>
      match print_email email with
      | Except.error e => ([], some e)
      | Except.ok lines =>
          let (more, err) := print_emails rest
          (lines ++ more, err)

/-- `email_client.get_inbox_emails` (the spec operation
`list_inbox_messages`). -/
def get_inbox_emails (env : IdentityEnv) (net : Network) : MailRunResult :=
  let auth := get_access_token env
  match auth.result with
  | Except.error e =>
      { authCalls := auth.calls, requests := [], output := [], error := some e }
  | Except.ok access_token =>
      let url := GRAPH_API_ENDPOINT ++ "/me/messages"
      let headers : PyDict := [("Authorization", "Bearer " ++ access_token)]
      let response := net.respond (HttpRequest.get url headers)
      if response.status_code == 200 then
        match response.json.dictGet "value" (Json.arr []) with
        | Except.error e =>
            { authCalls := auth.calls, requests := [HttpRequest.get url headers],
              output := [], error := some e }
        | Except.ok value =>
            match value.asList with
            | Except.error e =>
                { authCalls := auth.calls, requests := [HttpRequest.get url headers],
                  output := [], error := some e }
            | Except.ok emails =>
                let (lines, err) := print_emails emails
                { authCalls := auth.calls, requests := [HttpRequest.get url headers],
                  output := lines, error := err }
      else
        { authCalls := auth.calls, requests := [HttpRequest.get url headers],
          output := ["Error fetching emails: " ++ toString response.status_code ++ ", "
                      ++ response.text],
          error := none }

/-- A well-formed inbox message object carrying the given sender address,
subject and body preview, with the field layout the mail API documents. -/
def mkMessage (sender subject preview : String) : Json :=
  Json.obj
    [("from", Json.obj [("emailAddress", Json.obj [("address", Json.str sender)])]),
     ("subject", Json.str subject),
     ("bodyPreview", Json.str preview)]

/-! Concrete oracles used as witnesses. -/

/-- An identity state with one cached account whose silent reauthentication
succeeds, and whose interactive flow would hand out a different token. -/
def cachedEnv : IdentityEnv :=
  { accounts := ["user@contoso.com"],
    acquire_token_silent := fun _ _ => some [("access_token", "cached-token")],
    acquire_token_interactive := fun _ _ => [("access_token", "interactive-token")] }

/-- An identity state with no cached account and a succeeding interactive
flow. -/
def interEnv : IdentityEnv :=
  { accounts := [],
    acquire_token_silent := fun _ _ => none,
    acquire_token_interactive := fun _ _ => [("access_token", "tok0")] }

/-- An identity state whose interactive flow fails with an error
description. -/
def failEnv : IdentityEnv :=
  { accounts := [],
    acquire_token_silent := fun _ _ => none,
    acquire_token_interactive := fun _ _ =>
      [("error", "access_denied"), ("error_description", "user declined consent")] }

/-- An identity state with a cached account whose silent call returns a
truthy error dict without an access-token key. -/
def errEnv : IdentityEnv :=
  { accounts := ["user@contoso.com"],
    acquire_token_silent := fun _ _ => some [("error", "interaction_required")],
    acquire_token_interactive := fun _ _ => [("access_token", "tok1")] }

/-- A mail API that accepts every send with status 202. -/
def net202 : Network :=
  { respond := fun _ => { status_code := 202, text := "", json := Json.obj [] } }

/-- A mail API that rejects every request with status 400. -/
def net400 : Network :=
  { respond := fun _ =>
      { status_code := 400, text := "Bad Request", json := Json.obj [] } }

/-- A mail API that rejects every request with status 401. -/
def net401 : Network :=
  { respond := fun _ =>
      { status_code := 401, text := "Unauthorized", json := Json.obj [] } }

/-- A mail API answering 200 with two messages in its value array. -/
def net200two : Network :=
  { respond := fun _ =>
      { status_code := 200, text := "ok",
        json := Json.obj [("value", Json.arr
          [mkMessage "alice@contoso.com" "Hello" "Hi there",
           mkMessage "bob@contoso.com" "Re: Hello" "Thanks"])] } }

/-- A mail API answering 200 with an object lacking the value key. -/
def net200noValue : Network :=
  { respond := fun _ =>
      { status_code := 200, text := "ok",
        json := Json.obj [("@odata.context", Json.str "ctx")] } }

/-! Shared helper lemmas. -/

/-- The interactive acquisition makes exactly one provider call, on every
path. -/
theorem get_access_token_calls (env : IdentityEnv) :
    (get_access_token env).calls = [ProviderCall.interactive] := by
  simp only [get_access_token]
  cases (env.acquire_token_interactive SCOPE REDIRECT_URI).get? "access_token" <;> rfl

/-! Claim theorems. -/

/-- Claim C1: with a cached account whose silent reauthentication yields a
token, both mail operations still make only the interactive provider call;
the cached path, which would have returned the cached token, is never
consulted. This contradicts the claim that the provider called by the mail
operations prefers a cached credential. -/
theorem send_email_never_consults_cache :
    (send_email cachedEnv net202 "a@b.com" "S" "B").authCalls
        = [ProviderCall.interactive] ∧
    (get_inbox_emails cachedEnv net200two).authCalls
        = [ProviderCall.interactive] ∧
    (get_cached_access_token cachedEnv).result = Except.ok "cached-token" := by
  refine ⟨rfl, rfl, rfl⟩

/-- Claim C2: when a cached account exists and silent reauthentication
returns a dict containing an access token, `get_cached_access_token` returns
that token and never invokes the interactive flow. -/
theorem get_cached_access_token_silent_hit (env : IdentityEnv)
    (account : Account) (rest : List Account) (result : PyDict) (tok : String)
    (hacc : env.accounts = account :: rest)
    (hsil : env.acquire_token_silent SCOPE account = some result)
    (htok : result.get? "access_token" = some tok) :
    (get_cached_access_token env).result = Except.ok tok ∧
    ProviderCall.interactive ∉ (get_cached_access_token env).calls := by
  have htruthy : result.truthy = true := by
    cases result with
    | nil => simp [PyDict.get?] at htok
    | cons p ps => simp [PyDict.truthy]
  simp only [get_cached_access_token, hacc, hsil, htruthy, htok, if_true]
  simp

theorem get_cached_access_token_silent_hit_witness :
    (get_cached_access_token cachedEnv).result = Except.ok "cached-token" ∧
    ProviderCall.interactive ∉ (get_cached_access_token cachedEnv).calls :=
  get_cached_access_token_silent_hit cachedEnv "user@contoso.com" []
    [("access_token", "cached-token")] "cached-token" rfl rfl rfl

/-- Claim C8: with no cached account, `get_cached_access_token` invokes the
interactive acquisition and returns its result. -/
theorem no_accounts_falls_through_to_interactive (env : IdentityEnv)
    (hacc : env.accounts = []) :
    (get_cached_access_token env).result = (get_access_token env).result ∧
    ProviderCall.interactive ∈ (get_cached_access_token env).calls := by
  simp only [get_cached_access_token, hacc]
  simp [get_access_token_calls]

theorem no_accounts_falls_through_to_interactive_witness :
    (get_cached_access_token interEnv).result = (get_access_token interEnv).result ∧
    ProviderCall.interactive ∈ (get_cached_access_token interEnv).calls :=
  no_accounts_falls_through_to_interactive interEnv rfl

/-- Claim C9: with a cached account and a truthy silent result lacking the
access-token key, `get_cached_access_token` raises `KeyError` instead of
falling back to the interactive flow. -/
theorem silent_error_dict_raises_key_error (env : IdentityEnv)
    (account : Account) (rest : List Account) (result : PyDict)
    (hacc : env.accounts = account :: rest)
    (hsil : env.acquire_token_silent SCOPE account = some result)
    (htruthy : result.truthy = true)
    (hno : result.get? "access_token" = none) :
    (get_cached_access_token env).result
        = Except.error (PyError.keyError "access_token") ∧
    ProviderCall.interactive ∉ (get_cached_access_token env).calls := by
  simp only [get_cached_access_token, hacc, hsil, htruthy, hno, if_true]
  simp

theorem silent_error_dict_raises_key_error_witness :
    (get_cached_access_token errEnv).result
        = Except.error (PyError.keyError "access_token") ∧
    ProviderCall.interactive ∉ (get_cached_access_token errEnv).calls :=
  silent_error_dict_raises_key_error errEnv "user@contoso.com" []
    [("error", "interaction_required")] rfl rfl rfl rfl

/-- Projecting a well-formed message yields its four output lines. -/
theorem print_email_mkMessage (sender subject preview : String) :
    print_email (mkMessage sender subject preview) =
      Except.ok ["From: " ++ sender, "Subject: " ++ subject, "Body: " ++ preview,
                 String.mk (List.replicate 40 '-')] := rfl

/-- The message loop over a list of well-formed messages emits one
four-line block per message, in order, and raises nothing. -/
theorem print_emails_mkMessage (msgs : List (String × String × String)) :
    print_emails (msgs.map fun m => mkMessage m.1 m.2.1 m.2.2) =
      ((msgs.map fun m =>
          ["From: " ++ m.1, "Subject: " ++ m.2.1, "Body: " ++ m.2.2,
           String.mk (List.replicate 40 '-')]).flatten, none) := by
  induction msgs with
  | nil => rfl
  | cons m rest ih =>
      simp [print_emails, print_email_mkMessage, ih]

/-- Claim C3: against an API answering 202, `send_email` reports success,
raises nothing, and issues exactly one POST carrying the documented JSON
payload with the recipient, subject and body interpolated, under the
Authorization and Content-Type headers. -/
theorem send_email_202_success (env : IdentityEnv) (net : Network)
    (recipient subject body tok : String)
    (htok : (get_access_token env).result = Except.ok tok)
    (h202 : ∀ req, (net.respond req).status_code = 202) :
    (send_email env net recipient subject body).output = ["email sent successfully"] ∧
    (send_email env net recipient subject body).error = none ∧
    (send_email env net recipient subject body).requests =
      [HttpRequest.post (GRAPH_API_ENDPOINT ++ "/me/sendMail")
        [("Authorization", "Bearer " ++ tok), ("Content-Type", "application/json")]
        (Json.obj
          [("message", Json.obj
              [("subject", Json.str subject),
               ("body", Json.obj
                 [("contentType", Json.str "Text"), ("content", Json.str body)]),
               ("toRecipients", Json.arr
                 [Json.obj [("emailAddress", Json.obj [("address", Json.str recipient)])]])]),
           ("saveToSentItems", Json.str "true")])] := by
  simp only [send_email, htok]
  simp [h202]

theorem send_email_202_success_witness :
    (send_email interEnv net202 "a@b.com" "S" "B").output = ["email sent successfully"] ∧
    (send_email interEnv net202 "a@b.com" "S" "B").error = none ∧
    (send_email interEnv net202 "a@b.com" "S" "B").requests =
      [HttpRequest.post (GRAPH_API_ENDPOINT ++ "/me/sendMail")
        [("Authorization", "Bearer " ++ "tok0"), ("Content-Type", "application/json")]
        (Json.obj
          [("message", Json.obj
              [("subject", Json.str "S"),
               ("body", Json.obj
                 [("contentType", Json.str "Text"), ("content", Json.str "B")]),
               ("toRecipients", Json.arr
                 [Json.obj [("emailAddress", Json.obj [("address", Json.str "a@b.com")])]])]),
           ("saveToSentItems", Json.str "true")])] :=
  send_email_202_success interEnv net202 "a@b.com" "S" "B" "tok0" rfl (fun _ => rfl)

/-- Claim C4: against an API answering any status other than 202,
`send_email` reports the status code and response text, raises nothing, and
returns normally after its single POST. -/
theorem send_email_non_202_reports (env : IdentityEnv) (net : Network)
    (recipient subject body tok t : String) (s : Nat) (j : Json)
    (htok : (get_access_token env).result = Except.ok tok)
    (hresp : ∀ req, net.respond req = { status_code := s, text := t, json := j })
    (hs : s ≠ 202) :
    (send_email env net recipient subject body).output =
      ["error sending email: " ++ toString s ++ ", " ++ t] ∧
    (send_email env net recipient subject body).error = none ∧
    (send_email env net recipient subject body).requests.length = 1 := by
  simp only [send_email, htok]
  simp [hresp, hs]

theorem send_email_non_202_reports_witness :
    (send_email interEnv net400 "a@b.com" "S" "B").output =
      ["error sending email: " ++ toString 400 ++ ", " ++ "Bad Request"] ∧
    (send_email interEnv net400 "a@b.com" "S" "B").error = none ∧
    (send_email interEnv net400 "a@b.com" "S" "B").requests.length = 1 :=
  send_email_non_202_reports interEnv net400 "a@b.com" "S" "B" "tok0"
    "Bad Request" 400 (Json.obj []) rfl (fun _ => rfl) (by decide)

/-- Claim C5: against an API answering 200 with a value array of well-formed
messages, `get_inbox_emails` emits one projection block per message, in array
order, extracting the sender address, subject and body preview, and raises
nothing; an empty array yields no output. -/
theorem get_inbox_emails_200_projections (env : IdentityEnv) (net : Network)
    (tok t : String) (msgs : List (String × String × String))
    (htok : (get_access_token env).result = Except.ok tok)
    (hresp : ∀ req, net.respond req =
      { status_code := 200, text := t,
        json := Json.obj [("value", Json.arr
          (msgs.map fun m => mkMessage m.1 m.2.1 m.2.2))] }) :
    (get_inbox_emails env net).output =
      (msgs.map fun m =>
        ["From: " ++ m.1, "Subject: " ++ m.2.1, "Body: " ++ m.2.2,
         String.mk (List.replicate 40 '-')]).flatten ∧
    (get_inbox_emails env net).error = none := by
  simp only [get_inbox_emails, htok]
  simp [hresp, Json.dictGet, Json.asList, print_emails_mkMessage]

theorem get_inbox_emails_200_projections_witness :
    (get_inbox_emails interEnv net200two).output =
      ([("alice@contoso.com", "Hello", "Hi there"),
        ("bob@contoso.com", "Re: Hello", "Thanks")].map
          (fun m : String × String × String =>
            ["From: " ++ m.1, "Subject: " ++ m.2.1, "Body: " ++ m.2.2,
             String.mk (List.replicate 40 '-')])).flatten ∧
    (get_inbox_emails interEnv net200two).error = none :=
  get_inbox_emails_200_projections interEnv net200two "tok0" "ok"
    [("alice@contoso.com", "Hello", "Hi there"),
     ("bob@contoso.com", "Re: Hello", "Thanks")] rfl (fun _ => rfl)

/-- Claim C6: against an API answering any status other than 200,
`get_inbox_emails` reports the status code and response text, emits no
message projection, and raises nothing. -/
theorem get_inbox_emails_non_200_reports (env : IdentityEnv) (net : Network)
    (tok t : String) (s : Nat) (j : Json)
    (htok : (get_access_token env).result = Except.ok tok)
    (hresp : ∀ req, net.respond req = { status_code := s, text := t, json := j })
    (hs : s ≠ 200) :
    (get_inbox_emails env net).output =
      ["Error fetching emails: " ++ toString s ++ ", " ++ t] ∧
    (get_inbox_emails env net).error = none := by
  simp only [get_inbox_emails, htok]
  simp [hresp, hs]

theorem get_inbox_emails_non_200_reports_witness :
    (get_inbox_emails interEnv net401).output =
      ["Error fetching emails: " ++ toString 401 ++ ", " ++ "Unauthorized"] ∧
    (get_inbox_emails interEnv net401).error = none :=
  get_inbox_emails_non_200_reports interEnv net401 "tok0" "Unauthorized" 401
    (Json.obj []) rfl (fun _ => rfl) (by decide)

/-- Claim C7: when the interactive acquisition result carries no access
token, `get_access_token` raises an exception carrying the error description
of the provider, and that exception escapes `send_email` unrecovered: no
request is issued and no output is emitted. -/
theorem interactive_failure_propagates (env : IdentityEnv) (net : Network)
    (recipient subject body : String)
    (hfail : (env.acquire_token_interactive SCOPE REDIRECT_URI).get? "access_token"
        = none) :
    (get_access_token env).result =
      Except.error (PyError.exception "could not authenticate: "
        ((env.acquire_token_interactive SCOPE REDIRECT_URI).get? "error_description")) ∧
    (send_email env net recipient subject body).requests = [] ∧
    (send_email env net recipient subject body).output = [] ∧
    (send_email env net recipient subject body).error =
      some (PyError.exception "could not authenticate: "
        ((env.acquire_token_interactive SCOPE REDIRECT_URI).get? "error_description")) := by
  have h1 : (get_access_token env).result =
      Except.error (PyError.exception "could not authenticate: "
        ((env.acquire_token_interactive SCOPE REDIRECT_URI).get? "error_description")) := by
    simp only [get_access_token, hfail]
  refine ⟨h1, ?_, ?_, ?_⟩ <;> simp only [send_email, h1]

theorem interactive_failure_propagates_witness :
    (get_access_token failEnv).result =
      Except.error (PyError.exception "could not authenticate: "
        ((failEnv.acquire_token_interactive SCOPE REDIRECT_URI).get? "error_description")) ∧
    (send_email failEnv net202 "a@b.com" "S" "B").requests = [] ∧
    (send_email failEnv net202 "a@b.com" "S" "B").output = [] ∧
    (send_email failEnv net202 "a@b.com" "S" "B").error =
      some (PyError.exception "could not authenticate: "
        ((failEnv.acquire_token_interactive SCOPE REDIRECT_URI).get? "error_description")) :=
  interactive_failure_propagates failEnv net202 "a@b.com" "S" "B" rfl

/-- Claim C10: against an API answering 200 with a JSON object lacking the
value key, `get_inbox_emails` treats it as an empty list: no output and no
exception. -/
theorem get_inbox_emails_missing_value_key (env : IdentityEnv) (net : Network)
    (tok t : String) (fields : List (String × Json))
    (htok : (get_access_token env).result = Except.ok tok)
    (hresp : ∀ req, net.respond req =
      { status_code := 200, text := t, json := Json.obj fields })
    (hnok : fields.find? (fun p => p.1 == "value") = none) :
    (get_inbox_emails env net).output = [] ∧
    (get_inbox_emails env net).error = none := by
  simp only [get_inbox_emails, htok]
  simp [hresp, Json.dictGet, hnok, Json.asList, print_emails]

theorem get_inbox_emails_missing_value_key_witness :
    (get_inbox_emails interEnv net200noValue).output = [] ∧
    (get_inbox_emails interEnv net200noValue).error = none :=
  get_inbox_emails_missing_value_key interEnv net200noValue "tok0" "ok"
    [("@odata.context", Json.str "ctx")] rfl (fun _ => rfl) rfl
